import Mathlib

/-!
Verification of the A/B-test evaluator (`src/abtest.py`,
`src/abtest-analysis.py`, `src/data_analytics_examples/abtest-analysis.py`).

The Python code is a fixed-horizon two-proportion z-test: from four input
parameters it derives a per-group sample size, deterministically simulates
conversion counts at that size, and computes z-score, one-tailed p-value,
95% confidence interval and a significance verdict.

Modelling conventions.  Python floats are modelled by real numbers; the
two SciPy primitives `norm.ppf` (standard-normal inverse CDF) and
`norm.cdf` are transcendental, so they are passed as explicit function
parameters `ppf cdf : ℝ → ℝ`, and theorems that depend on their values
assume only the facts of the standard normal that the claim needs
(monotonicity, symmetry, interval bounds at the points actually used).
`int()` truncation and `np.ceil` are `Int.floor`/`Int.ceil`.  Real
arithmetic is total where float arithmetic produces NaN/Inf: `x / 0 = 0`
and `Real.sqrt` of a negative is `0`; theorems touching those corners are
stated so that this convention is not load-bearing, and the degenerate
inputs themselves are exhibited explicitly.
-/

namespace ABTest

/-- The four input parameters of the evaluator (`run_ab_test`'s keyword
arguments, and the module-level constants of `src/abtest.py`). -/
structure Config where
  baseline_rate : ℝ
  effect_size : ℝ
  alpha : ℝ
  power : ℝ

open Classical in
/-- Python `int()` applied to a float: truncation toward zero. -/
noncomputable def pyInt (x : ℝ) : ℤ := if 0 ≤ x then ⌊x⌋ else ⌈x⌉

/-- `z_alpha = norm.ppf(1 - alpha)` (src/abtest-analysis.py line 7). -/
noncomputable def z_alpha (ppf : ℝ → ℝ) (c : Config) : ℝ := ppf (1 - c.alpha)

/-- `z_beta = norm.ppf(power)` (line 8). -/
noncomputable def z_beta (ppf : ℝ → ℝ) (c : Config) : ℝ := ppf c.power

/-- `pooled_prob = baseline_rate` (line 9). -/
def pooled_prob (c : Config) : ℝ := c.baseline_rate

/-- `std_dev = np.sqrt(2 * pooled_prob * (1 - pooled_prob))` (line 10). -/
noncomputable def std_dev (c : Config) : ℝ :=
  Real.sqrt (2 * pooled_prob c * (1 - pooled_prob c))

/-- `sample_size = int(np.ceil(((z_alpha + z_beta) * std_dev / effect_size) ** 2))`
(line 11; `int` of an already-integral `np.ceil` value is `Int.ceil`). -/
noncomputable def sampleSize (ppf : ℝ → ℝ) (c : Config) : ℤ :=
  ⌈((z_alpha ppf c + z_beta ppf c) * std_dev c / c.effect_size) ^ 2⌉

/-- `conversions_A = int(n_A * baseline_rate)` with `n_A = sample_size` (lines 14-15). -/
noncomputable def conversions_A (ppf : ℝ → ℝ) (c : Config) : ℤ :=
  pyInt ((sampleSize ppf c : ℝ) * c.baseline_rate)

/-- `conversions_B = int(n_B * (baseline_rate + effect_size))` (line 16). -/
noncomputable def conversions_B (ppf : ℝ → ℝ) (c : Config) : ℤ :=
  pyInt ((sampleSize ppf c : ℝ) * (c.baseline_rate + c.effect_size))

/-- `p_A = conversions_A / n_A` (line 17). -/
noncomputable def p_A (ppf : ℝ → ℝ) (c : Config) : ℝ :=
  (conversions_A ppf c : ℝ) / (sampleSize ppf c : ℝ)

/-- `p_B = conversions_B / n_B` (line 18). -/
noncomputable def p_B (ppf : ℝ → ℝ) (c : Config) : ℝ :=
  (conversions_B ppf c : ℝ) / (sampleSize ppf c : ℝ)

/-- `uplift = p_B - p_A` (line 19). -/
noncomputable def uplift (ppf : ℝ → ℝ) (c : Config) : ℝ := p_B ppf c - p_A ppf c

/-- `SE = np.sqrt((p_A * (1 - p_A)) / n_A + (p_B * (1 - p_B)) / n_B)` (line 22). -/
noncomputable def SE (ppf : ℝ → ℝ) (c : Config) : ℝ :=
  Real.sqrt (p_A ppf c * (1 - p_A ppf c) / (sampleSize ppf c : ℝ) +
    p_B ppf c * (1 - p_B ppf c) / (sampleSize ppf c : ℝ))

/-- `z = uplift / SE` (line 23). -/
noncomputable def zScore (ppf : ℝ → ℝ) (c : Config) : ℝ := uplift ppf c / SE ppf c

/-- `p_value = 1 - norm.cdf(z)` (line 24). -/
noncomputable def p_value (ppf cdf : ℝ → ℝ) (c : Config) : ℝ := 1 - cdf (zScore ppf c)

/-- `z_crit = norm.ppf(0.975)` (line 25). -/
noncomputable def z_crit (ppf : ℝ → ℝ) : ℝ := ppf 0.975

/-- `ci_lower = uplift - z_crit * SE` (line 26). -/
noncomputable def ci_lower (ppf : ℝ → ℝ) (c : Config) : ℝ :=
  uplift ppf c - z_crit ppf * SE ppf c

/-- `ci_upper = uplift + z_crit * SE` (line 27). -/
noncomputable def ci_upper (ppf : ℝ → ℝ) (c : Config) : ℝ :=
  uplift ppf c + z_crit ppf * SE ppf c

/-- The computed quantities a run reports (the values placed in the
`results` dict; the dict additionally rounds them for display, which is
presentation only). -/
structure Result where
  sample_size : ℤ
  rate_A : ℝ
  rate_B : ℝ
  uplift : ℝ
  z : ℝ
  p_value : ℝ
  ci_lower : ℝ
  ci_upper : ℝ
  significant : Prop

/-- `run_ab_test` of `src/abtest-analysis.py` (lines 5-28 and the
`results` dict of lines 45-54): the verdict is `p_value < alpha`. -/
noncomputable def run_ab_test (ppf cdf : ℝ → ℝ) (c : Config) : Result where
  sample_size := sampleSize ppf c
  rate_A := p_A ppf c
  rate_B := p_B ppf c
  uplift := uplift ppf c
  z := zScore ppf c
  p_value := p_value ppf cdf c
  ci_lower := ci_lower ppf c
  ci_upper := ci_upper ppf c
  significant := p_value ppf cdf c < c.alpha

/-- `run_ab_test` of `src/data_analytics_examples/abtest-analysis.py`
(lines 23-106), translated separately: its body is the same sequence of
formulas, written out inline. -/
noncomputable def run_ab_test_v2 (ppf cdf : ℝ → ℝ) (c : Config) : Result :=
  let za := ppf (1 - c.alpha)
  let zb := ppf c.power
  let pooled := c.baseline_rate
  let sd := Real.sqrt (2 * pooled * (1 - pooled))
  let n : ℤ := ⌈((za + zb) * sd / c.effect_size) ^ 2⌉
  let convA := pyInt ((n : ℝ) * c.baseline_rate)
  let convB := pyInt ((n : ℝ) * (c.baseline_rate + c.effect_size))
  let pA := (convA : ℝ) / (n : ℝ)
  let pB := (convB : ℝ) / (n : ℝ)
  let up := pB - pA
  let se := Real.sqrt (pA * (1 - pA) / (n : ℝ) + pB * (1 - pB) / (n : ℝ))
  let zs := up / se
  let pv := 1 - cdf zs
  let zc := ppf 0.975
  { sample_size := n, rate_A := pA, rate_B := pB, uplift := up, z := zs,
    p_value := pv, ci_lower := up - zc * se, ci_upper := up + zc * se,
    significant := pv < c.alpha }

/-- The module-level script `src/abtest.py` (lines 9-76), with its four
module constants abstracted as the input parameters.  Its formulas are
those of `run_ab_test`, except that the verdict on line 75 compares the
p-value against the literal `0.05` ("Statistically Significant
(p < 0.05)?"), not against `alpha`. -/
noncomputable def abtestScript (ppf cdf : ℝ → ℝ) (c : Config) : Result where
  sample_size := sampleSize ppf c
  rate_A := p_A ppf c
  rate_B := p_B ppf c
  uplift := uplift ppf c
  z := zScore ppf c
  p_value := p_value ppf cdf c
  ci_lower := ci_lower ppf c
  ci_upper := ci_upper ppf c
  significant := p_value ppf cdf c < 0.05

/-- Error taxonomy named by the specification (§7): `InvalidConfiguration`
and `DegenerateInput`. -/
inductive EvalError where
  | invalidConfiguration
  | degenerateInput
deriving DecidableEq

/-- Outcome of one evaluation: a result record, or a signalled error. -/
inductive EvalOutcome where
  | ok (r : Result)
  | error (e : EvalError)

/-- The evaluation as the source performs it: `run_ab_test` contains no
validation and no `raise`; every configuration flows straight through the
computation and a full result record is produced. -/
noncomputable def runEval (ppf cdf : ℝ → ℝ) (c : Config) : EvalOutcome :=
  .ok (run_ab_test ppf cdf c)

/-- Modelled from the spec: the `InvalidConfiguration` validity predicate
(§4.1/§7) — all four parameters strictly inside (0,1) and
`baseline_rate + effect_size < 1`.  The source contains no such check;
this predicate is used only to state the claims. -/
def Valid (c : Config) : Prop :=
  0 < c.baseline_rate ∧ c.baseline_rate < 1 ∧
  0 < c.effect_size ∧ c.effect_size < 1 ∧
  0 < c.alpha ∧ c.alpha < 1 ∧
  0 < c.power ∧ c.power < 1 ∧
  c.baseline_rate + c.effect_size < 1

/-- The default configuration (`baseline_rate=0.06, effect_size=0.02,
alpha=0.05, power=0.8`). -/
noncomputable def defaultCfg : Config :=
  { baseline_rate := 0.06, effect_size := 0.02, alpha := 0.05, power := 0.8 }

open Classical in
/-- A concrete stand-in for `norm.ppf`, carrying the standard-normal
quantiles (to 5 decimal places) at the three points the evaluator ever
queries for the configurations used in witnesses and counterexamples. -/
noncomputable def ppfStd : ℝ → ℝ := fun x =>
  if x = 0.95 then 1.64485 else
  if x = 0.8 then 0.84162 else
  if x = 0.975 then 1.95996 else 0

/-- A degenerate but lawful stand-in for `norm.cdf`: the constant 1/2. -/
noncomputable def cdfConst : ℝ → ℝ := fun _ => 1 / 2

lemma ppfStd_95 : ppfStd 0.95 = 1.64485 := by
  rw [ppfStd]
  norm_num

lemma ppfStd_80 : ppfStd 0.8 = 0.84162 := by
  rw [ppfStd]
  norm_num

lemma pyInt_of_nonneg {x : ℝ} (h : 0 ≤ x) : pyInt x = ⌊x⌋ := if_pos h

/-- The sample-size formula with the square root eliminated: squaring the
product turns `std_dev` back into the variance `2 p (1-p)`. -/
lemma sampleSize_eq_sq (ppf : ℝ → ℝ) (c : Config)
    (h : 0 ≤ 2 * pooled_prob c * (1 - pooled_prob c)) :
    sampleSize ppf c =
      ⌈(z_alpha ppf c + z_beta ppf c) ^ 2 *
        (2 * pooled_prob c * (1 - pooled_prob c)) / c.effect_size ^ 2⌉ := by
  unfold sampleSize std_dev
  congr 1
  rw [div_pow, mul_pow, Real.sq_sqrt h]

lemma valid_defaultCfg : Valid defaultCfg := by
  unfold Valid defaultCfg
  norm_num

/-- Claim C1: for every valid configuration, the derived sample size equals
`⌈((z(1-alpha) + z(power)) * sqrt(2 * baseline_rate * (1 - baseline_rate))
/ effect_size)^2⌉` cast to integer, and the pooled probability used for the
variance is `baseline_rate` itself (not an average of both arms). -/
theorem C1_sample_size_formula (ppf : ℝ → ℝ) (c : Config) (h : Valid c) :
    sampleSize ppf c =
      ⌈((ppf (1 - c.alpha) + ppf c.power) *
        Real.sqrt (2 * c.baseline_rate * (1 - c.baseline_rate)) /
        c.effect_size) ^ 2⌉ ∧
    pooled_prob c = c.baseline_rate :=
  ⟨rfl, rfl⟩

/-- Witness for C1: the formula instantiated at the default configuration. -/
theorem C1_witness :
    sampleSize ppfStd defaultCfg =
      ⌈((ppfStd (1 - defaultCfg.alpha) + ppfStd defaultCfg.power) *
        Real.sqrt (2 * defaultCfg.baseline_rate * (1 - defaultCfg.baseline_rate)) /
        defaultCfg.effect_size) ^ 2⌉ ∧
    pooled_prob defaultCfg = defaultCfg.baseline_rate :=
  C1_sample_size_formula ppfStd defaultCfg valid_defaultCfg

/-- Claim C6: holding `baseline_rate`, `alpha` and `power` fixed, the sample
size derived for a smaller positive effect size is at least the sample size
derived for a larger one. -/
theorem C6_sample_size_antitone (ppf : ℝ → ℝ) (b α w e₁ e₂ : ℝ)
    (h2 : 0 < e₂) (h21 : e₂ ≤ e₁) :
    sampleSize ppf ⟨b, e₁, α, w⟩ ≤ sampleSize ppf ⟨b, e₂, α, w⟩ := by
  have hrw : ∀ e : ℝ, sampleSize ppf ⟨b, e, α, w⟩ =
      ⌈((ppf (1 - α) + ppf w) * Real.sqrt (2 * b * (1 - b))) ^ 2 / e ^ 2⌉ := by
    intro e
    unfold sampleSize z_alpha z_beta std_dev pooled_prob
    rw [div_pow]
  rw [hrw, hrw]
  apply Int.ceil_le_ceil
  gcongr

/-- Witness for C6: defaults with the effect size lowered from 0.02 to 0.01. -/
theorem C6_witness :
    sampleSize ppfStd ⟨0.06, 0.02, 0.05, 0.8⟩ ≤
      sampleSize ppfStd ⟨0.06, 0.01, 0.05, 0.8⟩ :=
  C6_sample_size_antitone ppfStd 0.06 0.05 0.8 0.02 0.01 (by norm_num) (by norm_num)

/-- Claim C7: for every valid configuration the reported significance verdict
is exactly the comparison `p_value < alpha` with the configured alpha; the
module-level script compares against the literal `0.05`, which coincides
with its configured alpha whenever that alpha is `0.05` (as it is in the
script). -/
theorem C7_significant_iff (ppf cdf : ℝ → ℝ) (c : Config) (h : Valid c) :
    ((run_ab_test ppf cdf c).significant ↔
      (run_ab_test ppf cdf c).p_value < c.alpha) ∧
    (c.alpha = 0.05 →
      ((abtestScript ppf cdf c).significant ↔
        (abtestScript ppf cdf c).p_value < c.alpha)) := by
  refine ⟨Iff.rfl, fun ha => ?_⟩
  show p_value ppf cdf c < 0.05 ↔ p_value ppf cdf c < c.alpha
  rw [ha]

/-- Witness for C7: instantiated at the default configuration. -/
theorem C7_witness :
    ((run_ab_test ppfStd cdfConst defaultCfg).significant ↔
      (run_ab_test ppfStd cdfConst defaultCfg).p_value < defaultCfg.alpha) ∧
    (defaultCfg.alpha = 0.05 →
      ((abtestScript ppfStd cdfConst defaultCfg).significant ↔
        (abtestScript ppfStd cdfConst defaultCfg).p_value < defaultCfg.alpha)) :=
  C7_significant_iff ppfStd cdfConst defaultCfg valid_defaultCfg

/-- Claim C9: the evaluation is deterministic — two runs on identical
configurations (and the same statistical primitives) agree in every field. -/
theorem C9_deterministic (ppf cdf : ℝ → ℝ) (c₁ c₂ : Config) (h : c₁ = c₂) :
    run_ab_test ppf cdf c₁ = run_ab_test ppf cdf c₂ := by
  rw [h]

/-- Witness for C9: two runs at the default configuration coincide. -/
theorem C9_witness :
    run_ab_test ppfStd cdfConst defaultCfg = run_ab_test ppfStd cdfConst defaultCfg :=
  C9_deterministic ppfStd cdfConst defaultCfg defaultCfg rfl

/-- A quantile-shaped function: strictly monotone, odd around 1/2, zero at
1/2 — the properties of the standard-normal inverse CDF that decide the
C5 counterexample (the evaluator queries the inverse CDF only at 1/2
there, where `norm.ppf` returns exactly 0). -/
noncomputable def ppfSym : ℝ → ℝ := fun x => x - 1 / 2

/-- A trivial stand-in for `norm.ppf` with value 1 everywhere. -/
noncomputable def ppfOne : ℝ → ℝ := fun _ => 1

/-- A valid configuration with round numbers, used in witnesses. -/
noncomputable def cfgW : Config :=
  { baseline_rate := 0.5, effect_size := 0.1, alpha := 0.05, power := 0.8 }

lemma z_alpha_ppfStd_default : z_alpha ppfStd defaultCfg = 1.64485 := by
  have ha : defaultCfg.alpha = 0.05 := rfl
  unfold z_alpha
  rw [ha, show (1 : ℝ) - 0.05 = 0.95 by norm_num]
  exact ppfStd_95

lemma z_beta_ppfStd_default : z_beta ppfStd defaultCfg = 0.84162 := by
  have hw : defaultCfg.power = 0.8 := rfl
  unfold z_beta
  rw [hw]
  exact ppfStd_80

lemma sampleSize_ppfOne_cfgW : sampleSize ppfOne cfgW = 200 := by
  rw [sampleSize_eq_sq ppfOne cfgW (by unfold pooled_prob cfgW; norm_num)]
  unfold z_alpha z_beta ppfOne pooled_prob cfgW
  rw [Int.ceil_eq_iff]
  push_cast
  norm_num

/-- Counterexample to claim C5: for a quantile function that is strictly
monotone and odd around 1/2 (as the standard-normal inverse CDF is, with
value 0 at 1/2), the valid configuration `(0.06, 0.02, alpha=0.5,
power=0.5)` yields `sample_size = ceil(0) = 0`, not a positive integer —
so the subsequent divisions by `n` are division by zero. -/
theorem C5_counterexample :
    ¬ (∀ ppf : ℝ → ℝ, StrictMono ppf → (∀ p : ℝ, ppf (1 - p) = -(ppf p)) →
        ∀ c : Config, Valid c → 0 < sampleSize ppf c) := by
  intro h
  have hmono : StrictMono ppfSym := fun a b hab => by simpa [ppfSym] using hab
  have hsym : ∀ p : ℝ, ppfSym (1 - p) = -(ppfSym p) := by
    intro p
    unfold ppfSym
    ring
  have hvalid : Valid ⟨0.06, 0.02, 0.5, 0.5⟩ := by
    unfold Valid
    norm_num
  have hpos := h ppfSym hmono hsym ⟨0.06, 0.02, 0.5, 0.5⟩ hvalid
  have hzero : sampleSize ppfSym ⟨0.06, 0.02, 0.5, 0.5⟩ = 0 := by
    unfold sampleSize
    rw [show z_alpha ppfSym ⟨0.06, 0.02, 0.5, 0.5⟩ +
        z_beta ppfSym ⟨0.06, 0.02, 0.5, 0.5⟩ = 0 by
      unfold z_alpha z_beta ppfSym
      norm_num]
    rw [zero_mul, zero_div]
    simp
  rw [hzero] at hpos
  exact lt_irrefl 0 hpos

/-- Claim C5 as amended: for every valid configuration in which the two
critical values do not cancel (`z_alpha + z_beta ≠ 0`; under the
standard-normal quantile this cancellation happens exactly when
`alpha = power`), the derived sample size is strictly positive. -/
theorem C5_sample_size_pos (ppf : ℝ → ℝ) (c : Config) (h : Valid c)
    (hz : z_alpha ppf c + z_beta ppf c ≠ 0) :
    0 < sampleSize ppf c := by
  obtain ⟨hb0, hb1, he0, _, _, _, _, _, _⟩ := h
  have hsd : 0 < std_dev c := by
    unfold std_dev
    apply Real.sqrt_pos.mpr
    unfold pooled_prob
    nlinarith
  have ht : (z_alpha ppf c + z_beta ppf c) * std_dev c / c.effect_size ≠ 0 :=
    div_ne_zero (mul_ne_zero hz (ne_of_gt hsd)) (ne_of_gt he0)
  unfold sampleSize
  apply Int.ceil_pos.mpr
  rw [← sq_abs]
  exact pow_pos (abs_pos.mpr ht) 2

/-- Witness for C5 (amended): the default configuration with accurate
critical values gives a positive sample size. -/
theorem C5_witness : 0 < sampleSize ppfStd defaultCfg :=
  C5_sample_size_pos ppfStd defaultCfg valid_defaultCfg
    (by rw [z_alpha_ppfStd_default, z_beta_ppfStd_default]; norm_num)

/-- Claim C10: for every valid configuration with a positive sample size,
the deterministically simulated uplift is non-negative, hence (for a
monotone normal CDF with value 1/2 at 0) the z-score is non-negative and
the one-tailed p-value is at most 1/2: the simulation can never report B
performing worse than A. -/
theorem C10_uplift_nonneg (ppf cdf : ℝ → ℝ) (c : Config)
    (hv : Valid c) (hn : 0 < sampleSize ppf c)
    (hmono : Monotone cdf) (h0 : cdf 0 = 1 / 2) :
    0 ≤ uplift ppf c ∧ 0 ≤ zScore ppf c ∧ p_value ppf cdf c ≤ 1 / 2 := by
  obtain ⟨hb0, _, he0, _, _, _, _, _, _⟩ := hv
  have hnR : (0 : ℝ) < (sampleSize ppf c : ℝ) := by exact_mod_cast hn
  have hcAB : conversions_A ppf c ≤ conversions_B ppf c := by
    unfold conversions_A conversions_B
    rw [pyInt_of_nonneg (mul_nonneg hnR.le hb0.le),
      pyInt_of_nonneg (mul_nonneg hnR.le (by linarith))]
    apply Int.floor_le_floor
    have hbe : c.baseline_rate ≤ c.baseline_rate + c.effect_size := by linarith
    exact mul_le_mul_of_nonneg_left hbe hnR.le
  have hup : 0 ≤ uplift ppf c := by
    unfold uplift p_A p_B
    rw [div_sub_div_same]
    apply div_nonneg _ hnR.le
    have : (conversions_A ppf c : ℝ) ≤ (conversions_B ppf c : ℝ) := by
      exact_mod_cast hcAB
    linarith
  have hSE : 0 ≤ SE ppf c := by
    unfold SE
    exact Real.sqrt_nonneg _
  have hz : 0 ≤ zScore ppf c := by
    unfold zScore
    exact div_nonneg hup hSE
  refine ⟨hup, hz, ?_⟩
  unfold p_value
  have hc : cdf 0 ≤ cdf (zScore ppf c) := hmono hz
  rw [h0] at hc
  linarith

/-- Witness for C10: a valid round-number configuration with sample size
200 and the constant-1/2 CDF. -/
theorem C10_witness :
    0 ≤ uplift ppfOne cfgW ∧ 0 ≤ zScore ppfOne cfgW ∧
      p_value ppfOne cdfConst cfgW ≤ 1 / 2 :=
  C10_uplift_nonneg ppfOne cdfConst cfgW
    (by unfold Valid cfgW; norm_num)
    (by rw [sampleSize_ppfOne_cfgW]; norm_num)
    monotone_const rfl

/-- An invalid configuration: both rates are inside (0,1) but
`baseline_rate + effect_size = 1.1 ≥ 1`. -/
noncomputable def badCfg : Config :=
  { baseline_rate := 0.6, effect_size := 0.5, alpha := 0.05, power := 0.8 }

/-- A valid configuration whose derived sample size is 1, so both simulated
conversion counts truncate to 0 and the standard error vanishes. -/
noncomputable def zeroSECfg : Config :=
  { baseline_rate := 0.001, effect_size := 0.9, alpha := 0.05, power := 0.8 }

lemma z_alpha_ppfStd (c : Config) (h : c.alpha = 0.05) :
    z_alpha ppfStd c = 1.64485 := by
  unfold z_alpha
  rw [h, show (1 : ℝ) - 0.05 = 0.95 by norm_num]
  exact ppfStd_95

lemma z_beta_ppfStd (c : Config) (h : c.power = 0.8) :
    z_beta ppfStd c = 0.84162 := by
  unfold z_beta
  rw [h]
  exact ppfStd_80

lemma pyInt_eq (x : ℝ) (n : ℤ) (h0 : 0 ≤ x) (h1 : (n : ℝ) ≤ x)
    (h2 : x < n + 1) : pyInt x = n := by
  rw [pyInt_of_nonneg h0, Int.floor_eq_iff]
  exact ⟨h1, h2⟩

lemma sampleSize_ppfStd_badCfg : sampleSize ppfStd badCfg = 12 := by
  rw [sampleSize_eq_sq ppfStd badCfg (by unfold pooled_prob badCfg; norm_num)]
  rw [z_alpha_ppfStd badCfg rfl, z_beta_ppfStd badCfg rfl]
  rw [show pooled_prob badCfg = 0.6 from rfl, show badCfg.effect_size = 0.5 from rfl]
  rw [Int.ceil_eq_iff]
  push_cast
  norm_num

lemma rate_B_ppfStd_badCfg : p_B ppfStd badCfg = 13 / 12 := by
  unfold p_B conversions_B
  rw [sampleSize_ppfStd_badCfg]
  rw [show badCfg.baseline_rate + badCfg.effect_size = 1.1 by
    rw [show badCfg.baseline_rate = 0.6 from rfl, show badCfg.effect_size = 0.5 from rfl]
    norm_num]
  push_cast
  rw [pyInt_eq (12 * 1.1) 13 (by norm_num) (by norm_num) (by norm_num)]
  norm_num

/-- Counterexample to claim C2: the configuration `(0.6, 0.5, 0.05, 0.8)`
violates `baseline_rate + effect_size < 1`, yet the evaluation does not
fail with `InvalidConfiguration`: `run_ab_test` contains no validation and
unconditionally produces a result record. -/
theorem C2_counterexample :
    ¬ (∀ (ppf cdf : ℝ → ℝ) (c : Config), ¬ Valid c →
        runEval ppf cdf c = EvalOutcome.error EvalError.invalidConfiguration) := by
  intro h
  have hbad : ¬ Valid badCfg := by
    intro hv
    obtain ⟨_, _, _, _, _, _, _, _, hlt⟩ := hv
    rw [show badCfg.baseline_rate = 0.6 from rfl,
      show badCfg.effect_size = 0.5 from rfl] at hlt
    norm_num at hlt
  have hcontra := h ppfStd cdfConst badCfg hbad
  simp only [runEval] at hcontra
  cases hcontra

/-- Claim C2 as amended: the reference evaluation never rejects any
configuration — there is no validation, so no error is ever signalled and
the derived computation always runs; in particular the invalid
configuration `(0.6, 0.5, 0.05, 0.8)` completes and silently yields the
out-of-range rate `p_B = 13/12 > 1` rather than being clamped or
rejected. -/
theorem C2_no_validation :
    (∀ (ppf cdf : ℝ → ℝ) (c : Config) (e : EvalError),
      runEval ppf cdf c ≠ EvalOutcome.error e) ∧
    ¬ Valid badCfg ∧ 1 < (run_ab_test ppfStd cdfConst badCfg).rate_B := by
  refine ⟨?_, ?_, ?_⟩
  · intro ppf cdf c e hEq
    simp only [runEval] at hEq
    cases hEq
  · intro hv
    obtain ⟨_, _, _, _, _, _, _, _, hlt⟩ := hv
    rw [show badCfg.baseline_rate = 0.6 from rfl,
      show badCfg.effect_size = 0.5 from rfl] at hlt
    norm_num at hlt
  · show (1 : ℝ) < p_B ppfStd badCfg
    rw [rate_B_ppfStd_badCfg]
    norm_num

lemma sampleSize_ppfStd_zeroSECfg : sampleSize ppfStd zeroSECfg = 1 := by
  rw [sampleSize_eq_sq ppfStd zeroSECfg (by unfold pooled_prob zeroSECfg; norm_num)]
  rw [z_alpha_ppfStd zeroSECfg rfl, z_beta_ppfStd zeroSECfg rfl]
  rw [show pooled_prob zeroSECfg = 0.001 from rfl,
    show zeroSECfg.effect_size = 0.9 from rfl]
  rw [Int.ceil_eq_iff]
  push_cast
  norm_num

lemma rate_A_ppfStd_zeroSECfg : p_A ppfStd zeroSECfg = 0 := by
  unfold p_A conversions_A
  rw [sampleSize_ppfStd_zeroSECfg]
  rw [show zeroSECfg.baseline_rate = 0.001 from rfl]
  push_cast
  rw [pyInt_eq (1 * 0.001) 0 (by norm_num) (by norm_num) (by norm_num)]
  norm_num

lemma rate_B_ppfStd_zeroSECfg : p_B ppfStd zeroSECfg = 0 := by
  unfold p_B conversions_B
  rw [sampleSize_ppfStd_zeroSECfg]
  rw [show zeroSECfg.baseline_rate + zeroSECfg.effect_size = 0.901 by
    rw [show zeroSECfg.baseline_rate = 0.001 from rfl,
      show zeroSECfg.effect_size = 0.9 from rfl]
    norm_num]
  push_cast
  rw [pyInt_eq (1 * 0.901) 0 (by norm_num) (by norm_num) (by norm_num)]
  norm_num

/-- Claim C3, evaluated at the failing input: the valid configuration
`(baseline_rate=0.001, effect_size=0.9, alpha=0.05, power=0.8)` derives
sample size 1, both simulated rates are 0, and the standard error is 0 —
yet the evaluator signals no `DegenerateInput` error: the run completes
(in float arithmetic the 0/0 z-score becomes NaN and propagates silently
into the z-score, p-value and confidence-interval outputs). -/
theorem C3_degenerate_not_signalled :
    Valid zeroSECfg ∧ SE ppfStd zeroSECfg = 0 ∧
    ∀ e : EvalError, runEval ppfStd cdfConst zeroSECfg ≠ EvalOutcome.error e := by
  refine ⟨by unfold Valid zeroSECfg; norm_num, ?_, ?_⟩
  · unfold SE
    rw [rate_A_ppfStd_zeroSECfg, rate_B_ppfStd_zeroSECfg]
    norm_num
  · intro e hEq
    simp only [runEval] at hEq
    cases hEq

/-- A constant stand-in for `norm.cdf` above the value of the standard
normal CDF at 2 (which is about 0.9772). -/
noncomputable def cdfHigh : ℝ → ℝ := fun _ => 0.98

lemma sampleSize_ppfStd_default : sampleSize ppfStd defaultCfg = 1744 := by
  rw [sampleSize_eq_sq ppfStd defaultCfg (by unfold pooled_prob defaultCfg; norm_num)]
  rw [z_alpha_ppfStd defaultCfg rfl, z_beta_ppfStd defaultCfg rfl]
  rw [show pooled_prob defaultCfg = 0.06 from rfl,
    show defaultCfg.effect_size = 0.02 from rfl]
  rw [Int.ceil_eq_iff]
  push_cast
  norm_num

/-- Counterexample to claim C4: for any inverse CDF accurate to 1e-4 at the
two queried quantiles (0.95 and 0.8) — far tighter than the claim's "±1
for inverse-CDF precision" allowance — the derived sample size at the
default configuration is 1744, not within ±1 of 2059. -/
theorem C4_counterexample :
    ¬ (∀ ppf : ℝ → ℝ, |ppf 0.95 - 1.64485| ≤ 0.0001 →
        |ppf 0.8 - 0.84162| ≤ 0.0001 →
        2058 ≤ sampleSize ppf defaultCfg ∧ sampleSize ppf defaultCfg ≤ 2060) := by
  intro h
  have hr := (h ppfStd (by rw [ppfStd_95]; norm_num) (by rw [ppfStd_80]; norm_num)).1
  rw [sampleSize_ppfStd_default] at hr
  norm_num at hr

/-- Claim C4 as amended: for the default configuration and any inverse CDF
accurate to 1e-4 at the queried quantiles, the derived sample size is
1744; the observed rates are `p_a = 104/1744 ≈ 0.0596` and
`p_b = 139/1744 ≈ 0.0797`, the uplift is `35/1744 ≈ 0.0201`, and (for a
monotone CDF that is at least 0.977 at 2, as the standard normal is) the
significance verdict is true. -/
theorem C4_default_results (ppf cdf : ℝ → ℝ)
    (h95 : |ppf 0.95 - 1.64485| ≤ 0.0001)
    (h80 : |ppf 0.8 - 0.84162| ≤ 0.0001)
    (hmono : Monotone cdf) (hc2 : 0.977 ≤ cdf 2) :
    sampleSize ppf defaultCfg = 1744 ∧
    p_A ppf defaultCfg = 104 / 1744 ∧
    p_B ppf defaultCfg = 139 / 1744 ∧
    uplift ppf defaultCfg = 35 / 1744 ∧
    (run_ab_test ppf cdf defaultCfg).significant := by
  obtain ⟨h95l, h95r⟩ := abs_le.mp h95
  obtain ⟨h80l, h80r⟩ := abs_le.mp h80
  have hza : z_alpha ppf defaultCfg = ppf 0.95 := by
    unfold z_alpha
    rw [show (1 : ℝ) - defaultCfg.alpha = 0.95 by
      rw [show defaultCfg.alpha = 0.05 from rfl]; norm_num]
  have hzb : z_beta ppf defaultCfg = ppf 0.8 := by
    unfold z_beta
    rw [show defaultCfg.power = 0.8 from rfl]
  have hN : sampleSize ppf defaultCfg = 1744 := by
    rw [sampleSize_eq_sq ppf defaultCfg (by unfold pooled_prob defaultCfg; norm_num),
      hza, hzb, show pooled_prob defaultCfg = 0.06 from rfl,
      show defaultCfg.effect_size = 0.02 from rfl]
    rw [Int.ceil_eq_iff]
    push_cast
    have hlo : (2.48627 : ℝ) ≤ ppf 0.95 + ppf 0.8 := by linarith
    have hhi : ppf 0.95 + ppf 0.8 ≤ (2.48667 : ℝ) := by linarith
    have hform : (ppf 0.95 + ppf 0.8) ^ 2 * (2 * 0.06 * (1 - 0.06)) / 0.02 ^ 2
        = (ppf 0.95 + ppf 0.8) ^ 2 * 282 := by ring
    rw [hform]
    have h1 : (6.1815385129 : ℝ) ≤ (ppf 0.95 + ppf 0.8) ^ 2 := by nlinarith
    have h2 : ((ppf 0.95 + ppf 0.8) ^ 2 : ℝ) ≤ 6.1835276889 := by nlinarith
    constructor
    · linarith
    · linarith
  have hNR : ((sampleSize ppf defaultCfg : ℤ) : ℝ) = 1744 := by
    rw [hN]
    norm_num
  have hpA : p_A ppf defaultCfg = 104 / 1744 := by
    unfold p_A conversions_A
    rw [hNR, show defaultCfg.baseline_rate = 0.06 from rfl]
    rw [pyInt_eq (1744 * 0.06) 104 (by norm_num) (by norm_num) (by norm_num)]
    norm_num
  have hpB : p_B ppf defaultCfg = 139 / 1744 := by
    unfold p_B conversions_B
    rw [hNR, show defaultCfg.baseline_rate + defaultCfg.effect_size = 0.08 by
      rw [show defaultCfg.baseline_rate = 0.06 from rfl,
        show defaultCfg.effect_size = 0.02 from rfl]
      norm_num]
    rw [pyInt_eq (1744 * 0.08) 139 (by norm_num) (by norm_num) (by norm_num)]
    norm_num
  have hup : uplift ppf defaultCfg = 35 / 1744 := by
    unfold uplift
    rw [hpA, hpB]
    norm_num
  refine ⟨hN, hpA, hpB, hup, ?_⟩
  have hSEeq : SE ppf defaultCfg =
      Real.sqrt (104 / 1744 * (1 - 104 / 1744) / 1744 +
        139 / 1744 * (1 - 139 / 1744) / 1744) := by
    unfold SE
    rw [hpA, hpB, hNR]
  have hrpos : (0 : ℝ) < 104 / 1744 * (1 - 104 / 1744) / 1744 +
      139 / 1744 * (1 - 139 / 1744) / 1744 := by norm_num
  have hsple : Real.sqrt (104 / 1744 * (1 - 104 / 1744) / 1744 +
      139 / 1744 * (1 - 139 / 1744) / 1744) ≤ 35 / 3488 := by
    rw [show (35 / 3488 : ℝ) = Real.sqrt ((35 / 3488) ^ 2) from
      (Real.sqrt_sq (by norm_num)).symm]
    apply Real.sqrt_le_sqrt
    norm_num
  have hzsc : 2 ≤ zScore ppf defaultCfg := by
    unfold zScore
    rw [hup, hSEeq]
    rw [le_div_iff₀ (Real.sqrt_pos.mpr hrpos)]
    linarith
  have hcz : (0.977 : ℝ) ≤ cdf (zScore ppf defaultCfg) := le_trans hc2 (hmono hzsc)
  show p_value ppf cdf defaultCfg < defaultCfg.alpha
  rw [show defaultCfg.alpha = 0.05 from rfl]
  unfold p_value
  linarith

/-- Witness for C4 (amended): instantiated with the 5-decimal quantile
table and a constant CDF of 0.98. -/
theorem C4_witness :
    sampleSize ppfStd defaultCfg = 1744 ∧
    p_A ppfStd defaultCfg = 104 / 1744 ∧
    p_B ppfStd defaultCfg = 139 / 1744 ∧
    uplift ppfStd defaultCfg = 35 / 1744 ∧
    (run_ab_test ppfStd cdfHigh defaultCfg).significant :=
  C4_default_results ppfStd cdfHigh
    (by rw [ppfStd_95]; norm_num)
    (by rw [ppfStd_80]; norm_num)
    monotone_const
    (by unfold cdfHigh; norm_num)

/-- A valid configuration with `alpha = 0.1`, used to separate the script
variant (which hard-codes `p < 0.05`) from the function variants. -/
noncomputable def cfgAlpha10 : Config :=
  { baseline_rate := 0.06, effect_size := 0.02, alpha := 0.1, power := 0.8 }

/-- A constant stand-in for `norm.cdf` whose one-tailed p-value
`1 - 0.93 = 0.07` falls strictly between 0.05 and 0.1. -/
noncomputable def cdfMid : ℝ → ℝ := fun _ => 0.93

/-- Counterexample to claim C8: the three variants are not functionally
identical for the same four input parameters.  At the valid configuration
`(0.06, 0.02, alpha=0.1, power=0.8)` with a (monotone, [0,1]-valued) CDF
giving p-value 0.07, the module-level script's verdict (`p < 0.05`, false)
differs from the function variants' verdict (`p < alpha = 0.1`, true). -/
theorem C8_counterexample :
    ¬ (∀ (ppf cdf : ℝ → ℝ) (c : Config), Monotone cdf →
        (∀ x : ℝ, 0 ≤ cdf x ∧ cdf x ≤ 1) → Valid c →
        abtestScript ppf cdf c = run_ab_test ppf cdf c ∧
        run_ab_test ppf cdf c = run_ab_test_v2 ppf cdf c) := by
  intro h
  have hbounds : ∀ x : ℝ, 0 ≤ cdfMid x ∧ cdfMid x ≤ 1 := fun x => by
    unfold cdfMid
    norm_num
  have hvalid : Valid cfgAlpha10 := by
    unfold Valid cfgAlpha10
    norm_num
  have heq := (h ppfStd cdfMid cfgAlpha10 monotone_const hbounds hvalid).1
  have hsig := congrArg Result.significant heq
  simp only [abtestScript, run_ab_test] at hsig
  have hpv : p_value ppfStd cdfMid cfgAlpha10 = 0.07 := by
    unfold p_value cdfMid
    norm_num
  rw [hpv, show cfgAlpha10.alpha = 0.1 from rfl] at hsig
  have h01 : (0.07 : ℝ) < 0.1 := by norm_num
  rw [← hsig] at h01
  norm_num at h01

/-- Claim C8 as amended: the two `run_ab_test` function variants are
identical on every input; the module-level script computes the same
sample size, rates, uplift, z-score, p-value and confidence interval, but
its significance verdict compares against the literal 0.05 instead of
alpha — so the script agrees with the function variants in full exactly
when the configured alpha is 0.05 (as in the script's own configuration). -/
theorem C8_variants (ppf cdf : ℝ → ℝ) (c : Config) :
    run_ab_test ppf cdf c = run_ab_test_v2 ppf cdf c ∧
    (abtestScript ppf cdf c).sample_size = (run_ab_test ppf cdf c).sample_size ∧
    (abtestScript ppf cdf c).rate_A = (run_ab_test ppf cdf c).rate_A ∧
    (abtestScript ppf cdf c).rate_B = (run_ab_test ppf cdf c).rate_B ∧
    (abtestScript ppf cdf c).uplift = (run_ab_test ppf cdf c).uplift ∧
    (abtestScript ppf cdf c).z = (run_ab_test ppf cdf c).z ∧
    (abtestScript ppf cdf c).p_value = (run_ab_test ppf cdf c).p_value ∧
    (abtestScript ppf cdf c).ci_lower = (run_ab_test ppf cdf c).ci_lower ∧
    (abtestScript ppf cdf c).ci_upper = (run_ab_test ppf cdf c).ci_upper ∧
    ((abtestScript ppf cdf c).significant ↔ p_value ppf cdf c < 0.05) ∧
    (c.alpha = 0.05 → abtestScript ppf cdf c = run_ab_test ppf cdf c) := by
  refine ⟨rfl, rfl, rfl, rfl, rfl, rfl, rfl, rfl, rfl, Iff.rfl, ?_⟩
  intro ha
  unfold abtestScript run_ab_test
  rw [ha]

/-- Witness for C8 (amended): at the default configuration (alpha = 0.05)
the script and the function variant coincide in full. -/
theorem C8_witness :
    abtestScript ppfStd cdfConst defaultCfg = run_ab_test ppfStd cdfConst defaultCfg :=
  (C8_variants ppfStd cdfConst defaultCfg).2.2.2.2.2.2.2.2.2.2 rfl

end ABTest
